import Mathlib

/-!
# Verification of the Raucous serial-console provisioning engine

Shallow embedding of `src/main.py`: the `Command` value and its response
validation, the `CommandFactory`, the access-level classifier, and the
`Connection` session engine (login handshake, command execution, pending
completion-marker tracking).  The serial transport is modelled as a script:
a list of responses handed out by successive polls (an exhausted script
polls as the empty string, matching `read_all` on a silent port).  Python
exceptions are modelled with `Except`/paired state, Python's `in` operator
on strings by a list-infix check, and `str.endswith` by a list-suffix check.
-/

namespace Raucous

/-- Embeds Python's substring operator `needle in hay` on the character
lists of the two strings: true iff `needle` occurs contiguously in `hay`. -/
def listContains (needle : List Char) : List Char → Bool
  | [] => needle.isEmpty
  | h :: t => needle.isPrefixOf (h :: t) || listContains needle t

/-- Python `needle in hay` for strings. -/
def substrB (needle hay : String) : Bool :=
  listContains needle.data hay.data

/-- Python `s.endswith(suffix)`. -/
def endsWithB (s suffix : String) : Bool :=
  suffix.data.isSuffixOf s.data

theorem listContains_iff (n h : List Char) : listContains n h = true ↔ n <:+: h := by
  induction h with
  | nil =>
    simp [listContains, List.isEmpty_iff]
  | cons c t ih =>
    simp [listContains, ih, List.infix_cons_iff]

theorem substrB_iff (n h : String) : substrB n h = true ↔ n.data <:+: h.data :=
  listContains_iff n.data h.data

theorem substrB_append_mid (a x b : String) : substrB x (a ++ x ++ b) = true := by
  rw [substrB_iff]
  simp only [String.data_append]
  exact List.infix_append _ _ _

/-- Embeds the Python `Command` value as `main` builds it from a command
dict: `command`, optional `wait_for` completion marker, `validators`
(success markers) and `error_validators` (error markers). -/
structure Command where
  command : String
  wait_for : Option String := none
  validators : List String := []
  error_validators : List String := []
deriving DecidableEq

/-- A raised Python exception: `Exception(msg)` or a bare `assert` failure. -/
inductive PyError
  | exn (msg : String)
  | assertionError
deriving DecidableEq

deriving instance DecidableEq for Except

/-- Embeds `Command.validate_response`: scan `error_validators` in order and
raise `Exception("Error in command execution: " + error)` at the first error
marker contained in the response; otherwise return `True` when `validators`
is empty, else whether some validator is contained in the response. -/
def validate_response (c : Command) (response : String) : Except String Bool :=
  match c.error_validators.find? (fun e => substrB e response) with
  | some e => .error ("Error in command execution: " ++ e)
  | none =>
    if c.validators.isEmpty then .ok true
    else .ok (c.validators.any (fun v => substrB v response))

/-- The four console access levels of `main.py`. -/
inductive AccessLevel
  | LOGGED_OUT
  | USER
  | PRIVILEGED
  | CONFIG
deriving DecidableEq

/-- Embeds `Connection.check_access_level`: ordered suffix checks on the
response, `(config)#` before the bare `#`, then `>`, else logged out. -/
def check_access_level (response : String) : AccessLevel :=
  if endsWithB response "(config)#" then .CONFIG
  else if endsWithB response "#" then .PRIVILEGED
  else if endsWithB response ">" then .USER
  else .LOGGED_OUT

/-- The mutable state of a `Connection` over a scripted transport: the
responses future polls will return, the log of lines written so far (each
with its newline terminator), and the `wait_fors` pending-completion list. -/
structure ConnState where
  script : List String
  sent : List String
  wait_fors : List String
deriving DecidableEq

/-- One poll of the scripted transport (`ser.read_all().decode()`): the next
scripted response, or the empty string once the script is exhausted. -/
def readPoll : List String → String × List String
  | [] => ("", [])
  | r :: rs => (r, rs)

/-- The scan loop of `Connection.get_response`: walk the `wait_fors` list in
order and remove the first marker contained in the response (the function
returns as soon as one is removed, so later markers are not examined). -/
def removeFirstMatch : List String → String → List String
  | [], _ => []
  | w :: ws, response =>
    if substrB w response then ws
    else w :: removeFirstMatch ws response

/-- Embeds `Connection.get_response`: poll the transport, scan `wait_fors`
for the first marker contained in the response, and return the response. -/
def get_response (st : ConnState) : String × ConnState :=
  let (response, rest) := readPoll st.script
  (response,
    { st with script := rest, wait_fors := removeFirstMatch st.wait_fors response })

/-- Embeds `Connection.send_command`: write `command + "\n"`, sleep, poll. -/
def send_command (st : ConnState) (command : String) : String × ConnState :=
  get_response { st with sent := st.sent ++ [command ++ "\n"] }

/-- The login-name prompt text of `Connection.login`. -/
def loginPrompt : String := "Please Enter Login Name:"

/-- Embeds the `for _ in range(5) ... else raise` prompt-seeking loop of
`Connection.login`, fuel counting the remaining iterations: each iteration
first tests the current response for the prompt (breaking on success) and
otherwise sends an empty line; when the fuel runs out the `else` branch
raises.  Note the response to the final send is never tested. -/
def login_loop (st : ConnState) (response : String) : Nat → Except PyError String × ConnState
  | 0 => (.error (.exn "Could not find login prompt"), st)
  | n + 1 =>
    if substrB loginPrompt response then (.ok response, st)
    else
      let (r, st') := send_command st ""
      login_loop st' r n

/-- Embeds `Connection.login`: seek the login prompt (5 probe budget), send
the username, assert the password prompt, send the password, assert the
success text, and return the final response. -/
def login (username password : String) (st : ConnState) (response : String) :
    Except PyError String × ConnState :=
  match login_loop st response 5 with
  | (.error e, st) => (.error e, st)
  | (.ok _, st) =>
    let (r1, st) := send_command st username
    if substrB "Please Enter Password:" r1 then
      let (r2, st) := send_command st password
      if substrB "User login successful" r2 then (.ok r2, st)
      else (.error .assertionError, st)
    else (.error .assertionError, st)

/-- A constructed session: its transport state and its access level. -/
structure Conn where
  state : ConnState
  access_level : AccessLevel
deriving DecidableEq

/-- Embeds `Connection.__init__` over a scripted transport: probe with an
empty line, classify, log in when still logged out and reclassify, and
assert that the final level is not `LOGGED_OUT` (else no session value is
produced).  `username`/`password` stand for `config.username`/`config.password`. -/
def connInit (username password : String) (script : List String) : Except PyError Conn :=
  let st0 : ConnState := { script := script, sent := [], wait_fors := [] }
  let (r, st) := send_command st0 ""
  let lvl := check_access_level r
  if lvl = .LOGGED_OUT then
    match login username password st r with
    | (.error e, _) => .error e
    | (.ok r2, st2) =>
      if check_access_level r2 = .LOGGED_OUT then .error .assertionError
      else .ok { state := st2, access_level := check_access_level r2 }
  else .ok { state := st, access_level := lvl }

/-- Embeds `Connection.execute_command`, with the connection state that the
caller observes even when the call raises: send the command text, validate
the response (an error marker raises from `validate_response`; a `False`
validation raises the failed-validation message), and on success append a
truthy `wait_for` to the pending list and return the response. -/
def execute_command (conn : Conn) (c : Command) : Except PyError String × Conn :=
  let (response, st) := send_command conn.state c.command
  let conn1 : Conn := { conn with state := st }
  match validate_response c response with
  | .error e => (.error (.exn e), conn1)
  | .ok ok =>
    if ok then
      match c.wait_for with
      | some w =>
        if w = "" then (.ok response, conn1)
        else
          (.ok response,
            { conn1 with
              state := { conn1.state with wait_fors := conn1.state.wait_fors ++ [w] } })
      | none => (.ok response, conn1)
    else
      (.error (.exn ("Command '" ++ c.command ++ "' failed validation.\nResponse: "
        ++ response)), conn1)

/-! ## General lemmas about the embedded operations -/

theorem endsWithB_iff (s suffix : String) : endsWithB s suffix = true ↔ suffix.data <:+ s.data := by
  simp [endsWithB]

theorem endsWith_hash_of_config (r : String) (h : endsWithB r "(config)#" = true) :
    endsWithB r "#" = true := by
  rw [endsWithB_iff] at h ⊢
  exact List.IsSuffix.trans (by decide) h

/-- The response the `j`-th upcoming poll of a script returns (an exhausted
script polls as the empty string). -/
def scriptAt (l : List String) (j : Nat) : String := l.getD j ""

/-- The connection state after one `send_command st cmd`, with the sent line
logged, the script advanced and the pending list scanned once. -/
def afterSend (st : ConnState) (cmd : String) : ConnState :=
  { script := st.script.drop 1, sent := st.sent ++ [cmd ++ "\n"],
    wait_fors := removeFirstMatch st.wait_fors (scriptAt st.script 0) }

theorem send_command_eq (st : ConnState) (cmd : String) :
    send_command st cmd = (scriptAt st.script 0, afterSend st cmd) := by
  cases h : st.script <;>
    simp [send_command, get_response, readPoll, afterSend, scriptAt, h, List.getD]

/-- The connection state after one empty-line probe. -/
def probeStep (st : ConnState) : ConnState := afterSend st ""

theorem send_probe_eq (st : ConnState) :
    send_command st "" = (scriptAt st.script 0, probeStep st) :=
  send_command_eq st ""

theorem probeStep_script (st : ConnState) : (probeStep st).script = st.script.drop 1 := rfl

theorem probeStep_sent (st : ConnState) : (probeStep st).sent = st.sent ++ ["\n"] := by
  simp [probeStep, afterSend]

theorem scriptAt_drop_one (l : List String) (j : Nat) :
    scriptAt (l.drop 1) j = scriptAt l (j + 1) := by
  cases l <;> simp [scriptAt, List.getD]

theorem removeFirstMatch_sublist (wf : List String) (r : String) :
    (removeFirstMatch wf r).Sublist wf := by
  induction wf with
  | nil => simp [removeFirstMatch]
  | cons w ws ih =>
    by_cases h : substrB w r = true
    · simp [removeFirstMatch, h, List.sublist_cons_self]
    · rw [Bool.not_eq_true] at h
      simp only [removeFirstMatch, h, Bool.false_eq_true, if_false]
      exact List.Sublist.cons₂ w ih

theorem removeFirstMatch_length (wf : List String) (r : String) :
    wf.length ≤ (removeFirstMatch wf r).length + 1 := by
  induction wf with
  | nil => simp [removeFirstMatch]
  | cons w ws ih =>
    by_cases h : substrB w r = true
    · simp [removeFirstMatch, h]
    · rw [Bool.not_eq_true] at h
      simp only [removeFirstMatch, h, Bool.false_eq_true, if_false, List.length_cons]
      omega

/-- When neither the current response nor the first `n - 1` scripted probe
responses contain the login prompt, the seek loop with fuel `n` raises the
prompt-not-found error after sending `n` empty probes (the response to the
final probe is never examined). -/
theorem login_loop_error (n : Nat) :
    ∀ (st : ConnState) (r : String), substrB loginPrompt r = false →
      (∀ j, j + 1 < n → substrB loginPrompt (scriptAt st.script j) = false) →
      (login_loop st r n).1 = .error (.exn "Could not find login prompt") ∧
        (login_loop st r n).2.sent = st.sent ++ List.replicate n "\n" := by
  induction n with
  | zero => intro st r _ _; simp [login_loop]
  | succ m ih =>
    intro st r h0 hs
    simp only [login_loop, h0, Bool.false_eq_true, if_false, send_probe_eq]
    cases m with
    | zero =>
      simp [login_loop, probeStep_sent]
    | succ m' =>
      have h0' : substrB loginPrompt (scriptAt st.script 0) = false := hs 0 (by omega)
      have hs' : ∀ j, j + 1 < m' + 1 →
          substrB loginPrompt (scriptAt (probeStep st).script j) = false := by
        intro j hj
        rw [probeStep_script, scriptAt_drop_one]
        exact hs (j + 1) (by omega)
      have step := ih (probeStep st) (scriptAt st.script 0) h0' hs'
      refine ⟨step.1, ?_⟩
      rw [step.2, probeStep_sent]
      simp [List.replicate_succ, List.append_assoc]

/-- When the prompt is absent from the current response but present in the
`k`-th scripted probe response with `k + 1` below the fuel, the seek loop
returns that probe response. -/
theorem login_loop_found (n : Nat) :
    ∀ (k : Nat) (st : ConnState) (r : String), k + 1 < n →
      substrB loginPrompt r = false →
      (∀ j, j < k → substrB loginPrompt (scriptAt st.script j) = false) →
      substrB loginPrompt (scriptAt st.script k) = true →
      (login_loop st r n).1 = .ok (scriptAt st.script k) := by
  induction n with
  | zero => intro k st r hk; omega
  | succ m ih =>
    intro k st r hk h0 hsk hk1
    simp only [login_loop, h0, Bool.false_eq_true, if_false, send_probe_eq]
    cases k with
    | zero =>
      cases m with
      | zero => omega
      | succ m' =>
        simp only [login_loop, hk1, if_true]
    | succ k' =>
      have hk1' : substrB loginPrompt (scriptAt (probeStep st).script k') = true := by
        rw [probeStep_script, scriptAt_drop_one]; exact hk1
      have hsk' : ∀ j, j < k' →
          substrB loginPrompt (scriptAt (probeStep st).script j) = false := by
        intro j hj
        rw [probeStep_script, scriptAt_drop_one]
        exact hsk (j + 1) (by omega)
      have := ih k' (probeStep st) (scriptAt st.script 0) (by omega)
        (hsk 0 (by omega)) hsk' hk1'
      rw [probeStep_script, scriptAt_drop_one] at this
      exact this

/-! ## Claims -/

/-- Claim C1: `check_access_level` returns `CONFIG` when the response ends
with `(config)#`; otherwise `PRIVILEGED` when it ends with `#`; otherwise
`USER` when it ends with `>`; otherwise `LOGGED_OUT` — the `(config)#`
check running before the bare-`#` check. -/
theorem c1_classify (r : String) :
    (endsWithB r "(config)#" = true → check_access_level r = .CONFIG) ∧
    (endsWithB r "(config)#" = false → endsWithB r "#" = true →
      check_access_level r = .PRIVILEGED) ∧
    (endsWithB r "#" = false → endsWithB r ">" = true → check_access_level r = .USER) ∧
    (endsWithB r "#" = false → endsWithB r ">" = false →
      check_access_level r = .LOGGED_OUT) := by
  have hcfg : endsWithB r "#" = false → endsWithB r "(config)#" = false := by
    intro h2
    cases hc : endsWithB r "(config)#" with
    | false => rfl
    | true => rw [endsWith_hash_of_config r hc] at h2; cases h2
  refine ⟨fun h1 => ?_, fun h1 h2 => ?_, fun h2 h3 => ?_, fun h2 h3 => ?_⟩
  · simp [check_access_level, h1]
  · simp [check_access_level, h1, h2]
  · simp [check_access_level, hcfg h2, h2, h3]
  · simp [check_access_level, hcfg h2, h2, h3]

/-- Claim C2: whenever some error marker of the command is a substring of
the response (`find?` locates the first such marker `e`, so in particular
whenever one exists — success markers present or not), `validate_response`
raises the exception naming that marker. -/
theorem c2_error_precedence (c : Command) (r e : String)
    (he : c.error_validators.find? (fun x => substrB x r) = some e) :
    e ∈ c.error_validators ∧ substrB e r = true ∧
      validate_response c r = .error ("Error in command execution: " ++ e) := by
  refine ⟨List.mem_of_find?_eq_some he, ?_, ?_⟩
  · have h := List.find?_some he
    simpa using h
  · simp [validate_response, he]

/-- A command carrying both an error marker and a success marker, as in the
spec's precedence example. -/
def cmdWithBothMarkers : Command :=
  { command := "crypto key generate rsa", wait_for := none,
    validators := ["successfully created"],
    error_validators := ["Key already exists"] }

/-- Witness for C2: a response holding both the error marker and the
success marker still raises, naming the error marker. -/
theorem c2_witness :
    "Key already exists" ∈ cmdWithBothMarkers.error_validators ∧
      substrB "Key already exists" "Key already exists; successfully created" = true ∧
      validate_response cmdWithBothMarkers "Key already exists; successfully created" =
        .error ("Error in command execution: " ++ "Key already exists") :=
  c2_error_precedence cmdWithBothMarkers "Key already exists; successfully created"
    "Key already exists" (by decide)

/-- Counterexample to C3 as stated: with pending markers `["AA", "BB"]` and
a polled response containing both, marker `BB` is contained in the response
yet is not removed by the scan (only the first match `AA` is). -/
theorem c3_cex :
    substrB "BB" "AA BB" = true ∧ "BB" ∈ (["AA", "BB"] : List String) ∧
      removeFirstMatch ["AA", "BB"] "AA BB" = ["BB"] := by decide

/-- Amended C3: one poll removes exactly the first pending marker (in list
order) contained in the response; every other pending marker — whether or
not it is contained in that response — remains pending. -/
theorem c3_first_match_only (l₁ l₂ : List String) (w r : String)
    (h₁ : ∀ u ∈ l₁, substrB u r = false) (h₂ : substrB w r = true) :
    removeFirstMatch (l₁ ++ w :: l₂) r = l₁ ++ l₂ := by
  induction l₁ with
  | nil => simp [removeFirstMatch, h₂]
  | cons u us ih =>
    have hu : substrB u r = false := h₁ u (List.mem_cons_self u us)
    have ih' := ih (fun v hv => h₁ v (List.mem_cons_of_mem u hv))
    simp only [List.cons_append, removeFirstMatch, hu, Bool.false_eq_true, if_false,
      List.append_eq, ih']

/-- Witness for the amended C3 at a concrete pending list and response. -/
theorem c3_witness :
    removeFirstMatch (["AA"] ++ "CC" :: ["DD"]) "x CC y" = ["AA"] ++ ["DD"] :=
  c3_first_match_only ["AA"] ["DD"] "CC" "x CC y" (by decide) (by decide)

/-- Counterexample to C4 as stated: a single response containing both
pending markers `K1` and `K2` satisfies only `K1`; `K2` stays pending. -/
theorem c4_cex :
    substrB "K1" "K1 and K2 done" = true ∧ substrB "K2" "K1 and K2 done" = true ∧
      removeFirstMatch ["K1", "K2"] "K1 and K2 done" = ["K2"] := by decide

theorem removeFirstMatch_first (r : String) (l₁ l₂ : List String) (w : String)
    (h₁ : ∀ u ∈ l₁, substrB u r = false) (h₂ : substrB w r = true) :
    removeFirstMatch (l₁ ++ w :: l₂) r = l₁ ++ l₂ := by
  induction l₁ with
  | nil => simp [removeFirstMatch, h₂]
  | cons u us ih =>
    have hu : substrB u r = false := h₁ u (List.mem_cons_self u us)
    have ih' := ih (fun v hv => h₁ v (List.mem_cons_of_mem u hv))
    simp only [List.cons_append, removeFirstMatch, hu, Bool.false_eq_true, if_false,
      List.append_eq, ih']

/-- Amended C4: scanning one polled response removes at most one pending
marker — when the pending list decomposes around its first contained marker
`w` (no marker before `w` matches the response, `w` does), exactly that
marker is removed and every other pending marker, the later contained ones
included, remains; in every case the result is a sublist of the pending
list losing at most one element. -/
theorem c4_only_first_removed (wf : List String) (r : String) :
    (removeFirstMatch wf r).Sublist wf ∧
    wf.length ≤ (removeFirstMatch wf r).length + 1 ∧
    (∀ l₁ w l₂, wf = l₁ ++ w :: l₂ → (∀ u ∈ l₁, substrB u r = false) →
      substrB w r = true → removeFirstMatch wf r = l₁ ++ l₂) := by
  refine ⟨removeFirstMatch_sublist wf r, removeFirstMatch_length wf r, ?_⟩
  intro l₁ w l₂ hwf h₁ h₂
  subst hwf
  exact removeFirstMatch_first r l₁ l₂ w h₁ h₂

/-- The spec's scripted login sequence for C5. -/
def c5Script : List String :=
  ["", "", "Please Enter Login Name:", "Please Enter Password:", "User login successful"]

/-- The state after the constructor's initial empty-line probe on `c5Script`. -/
def c5AfterProbe : ConnState :=
  { script := ["", "Please Enter Login Name:", "Please Enter Password:", "User login successful"],
    sent := ["\n"], wait_fors := [] }

/-- The state after `login` succeeds on the C5 script: the sent log shows
the two empty probes of the seek loop, then the username and password. -/
def c5LoginEnd : ConnState :=
  { script := [], sent := ["\n", "\n", "\n", "user1\n", "pw1\n"], wait_fors := [] }

/-- Counterexample to C5 as stated: on the spec's scripted response
sequence, session construction does not succeed — the constructor's final
assertion fails and no session value is produced. -/
theorem c5_cex :
    connInit "user1" "pw1" c5Script = .error .assertionError := by decide

/-- Amended C5: on the scripted sequence the initial probe classifies
`LOGGED_OUT`, the login sequencer itself succeeds — exactly two empty
probes before the prompt, one username exchange and one password exchange,
returning the success response — but reclassifying `"User login
successful"` yields `LOGGED_OUT`, so the constructor's assertion fails and
the session is never constructed. -/
theorem c5_login_succeeds_but_session_fails :
    check_access_level "" = .LOGGED_OUT ∧
    send_command { script := c5Script, sent := [], wait_fors := [] } "" = ("", c5AfterProbe) ∧
    login "user1" "pw1" c5AfterProbe "" = (.ok "User login successful", c5LoginEnd) ∧
    check_access_level "User login successful" = .LOGGED_OUT ∧
    connInit "user1" "pw1" c5Script = .error .assertionError := by decide

/-- The C6 counterexample script: the login prompt first appears in the
response to the fifth probe. -/
def c6Script : List String := ["", "", "", "", "Please Enter Login Name:"]

/-- The starting state for the C6 counterexample. -/
def c6Start : ConnState := { script := c6Script, sent := [], wait_fors := [] }

/-- Counterexample to C6 as stated: the response to the fifth retry
contains the login prompt, yet `login` raises the prompt-not-found error;
the sent log shows the five empty probes and no username line. -/
theorem c6_cex :
    substrB loginPrompt (scriptAt c6Script 4) = true ∧
    (login "user2" "pw2" c6Start "").1 = .error (.exn "Could not find login prompt") ∧
    (login "user2" "pw2" c6Start "").2.sent = ["\n", "\n", "\n", "\n", "\n"] := by decide

/-- Amended C6: the seek loop sends up to five empty probes but examines
only the responses to the initial probe and to the first four probes: the
prompt in the current response succeeds immediately; the prompt first
appearing in probe response `k < 4` makes the loop return that response
(login then proceeds to the username exchange); and when the prompt is in
none of those five examined responses, `login` fails with the
prompt-not-found error after sending exactly five empty probes and no
username — even if the fifth probe's response contains the prompt. -/
theorem c6_prompt_window (u p : String) (st : ConnState) (r0 : String) :
    (substrB loginPrompt r0 = true → login_loop st r0 5 = (.ok r0, st)) ∧
    (∀ k, k < 4 → substrB loginPrompt r0 = false →
      (∀ j, j < k → substrB loginPrompt (scriptAt st.script j) = false) →
      substrB loginPrompt (scriptAt st.script k) = true →
      (login_loop st r0 5).1 = .ok (scriptAt st.script k)) ∧
    (substrB loginPrompt r0 = false →
      (∀ j, j < 4 → substrB loginPrompt (scriptAt st.script j) = false) →
      (login u p st r0).1 = .error (.exn "Could not find login prompt") ∧
        (login u p st r0).2.sent = st.sent ++ ["\n", "\n", "\n", "\n", "\n"]) := by
  refine ⟨fun h => by simp [login_loop, h], ?_, ?_⟩
  · intro k hk h0 hj hkk
    exact login_loop_found 5 k st r0 (by omega) h0 hj hkk
  · intro h0 hj
    have herr := login_loop_error 5 st r0 h0 (fun j hj' => hj j (by omega))
    rcases hl : login_loop st r0 5 with ⟨res, st'⟩
    rw [hl] at herr
    simp only at herr
    obtain ⟨h1, h2⟩ := herr
    subst h1
    simp only [login, hl]
    refine ⟨trivial, ?_⟩
    rw [h2]
    rfl

/-- The connection of the C7 counterexample: one marker `DONE` is already
pending, and the next scripted response contains both that marker and the
command's error marker. -/
def c7CexConn : Conn :=
  { state := { script := ["DONE ERRX"], sent := [], wait_fors := ["DONE"] },
    access_level := .PRIVILEGED }

/-- The command of the C7 counterexample. -/
def c7CexCmd : Command :=
  { command := "mk", wait_for := none, validators := [], error_validators := ["ERRX"] }

/-- Counterexample to C7 as stated: the execution raises a `CommandError`,
yet the pending set is changed — the poll inside `execute_command` removed
the already-pending marker `DONE` before validation raised. -/
theorem c7_cex :
    c7CexConn.state.wait_fors = ["DONE"] ∧
    (execute_command c7CexConn c7CexCmd).1 = .error (.exn "Error in command execution: ERRX") ∧
    (execute_command c7CexConn c7CexCmd).2.state.wait_fors = [] := by decide

/-- Amended C7: when `execute_command` raises, the access level is
unchanged and the command's completion marker is not added — the pending
set after the failed call is exactly the result of the one poll-scan of the
old pending set against the polled response (which may have removed one
already-pending marker), hence a sublist of the old pending set. -/
theorem c7_error_frame (conn : Conn) (c : Command) (e : PyError)
    (h : (execute_command conn c).1 = .error e) :
    (execute_command conn c).2.access_level = conn.access_level ∧
    (execute_command conn c).2.state.wait_fors =
      removeFirstMatch conn.state.wait_fors (scriptAt conn.state.script 0) ∧
    ((execute_command conn c).2.state.wait_fors).Sublist conn.state.wait_fors := by
  simp only [execute_command, send_command_eq] at h ⊢
  rcases hv : validate_response c (scriptAt conn.state.script 0) with e' | ok
  · simp [afterSend, removeFirstMatch_sublist]
  · cases ok with
    | false => simp [afterSend, removeFirstMatch_sublist]
    | true =>
      rw [hv] at h
      rcases hw : c.wait_for with _ | w
      · rw [hw] at h; simp at h
      · rw [hw] at h
        by_cases hwe : w = ""
        · simp [hwe] at h
        · simp [hwe] at h

/-- The connection of the C7 witness: marker `PEND` pending, and the next
scripted response contains it alongside the error marker `FAIL`. -/
def c7Conn : Conn :=
  { state := { script := ["PEND FAIL"], sent := [], wait_fors := ["PEND"] },
    access_level := .CONFIG }

/-- The command of the C7 witness. -/
def c7Cmd : Command :=
  { command := "doit", wait_for := none, validators := [], error_validators := ["FAIL"] }

/-- Witness for the amended C7 at a concrete erroring execution. -/
theorem c7_witness :
    (execute_command c7Conn c7Cmd).2.access_level = c7Conn.access_level ∧
    (execute_command c7Conn c7Cmd).2.state.wait_fors =
      removeFirstMatch c7Conn.state.wait_fors (scriptAt c7Conn.state.script 0) ∧
    ((execute_command c7Conn c7Cmd).2.state.wait_fors).Sublist c7Conn.state.wait_fors :=
  c7_error_frame c7Conn c7Cmd (.exn "Error in command execution: FAIL") (by decide)

/-- The session of the C8 witness: constructed from the one-response script
`["box>"]`, classified `USER`. -/
def c8Conn : Conn :=
  { state := { script := [], sent := ["\n"], wait_fors := [] }, access_level := .USER }

/-- Claim C8: whenever `connInit` returns a session, its access level is
not `LOGGED_OUT` (construction fails hard otherwise). -/
theorem c8_never_logged_out (u p : String) (script : List String) (s : Conn)
    (h : connInit u p script = .ok s) : s.access_level ≠ .LOGGED_OUT := by
  simp only [connInit, send_command_eq] at h
  split at h
  · split at h
    · exact absurd h (by simp)
    · split at h
      · exact absurd h (by simp)
      · rename_i r2 st2 heq hne
        injection h with h'
        subst h'
        simpa using hne
  · rename_i hne0
    injection h with h'
    subst h'
    simpa using hne0

/-- Witness for C8 at the concrete script `["box>"]`. -/
theorem c8_witness : c8Conn.access_level ≠ .LOGGED_OUT :=
  c8_never_logged_out "user3" "pw3" ["box>"] c8Conn (by decide)

/-- The connection of the C9 counterexample. -/
def c9CexConn : Conn :=
  { state := { script := ["xx ERRZ yy"], sent := [], wait_fors := [] },
    access_level := .CONFIG }

/-- The command of the C9 counterexample: error marker `ERRZ`. -/
def c9CexCmd : Command :=
  { command := "fixit", wait_for := none, validators := [], error_validators := ["ERRZ"] }

/-- Counterexample to C9 as stated: an error-marker match raises an error
whose message contains neither the command text `fixit` nor the raw
response — only the matched marker. -/
theorem c9_cex :
    (execute_command c9CexConn c9CexCmd).1 = .error (.exn "Error in command execution: ERRZ") ∧
    substrB c9CexCmd.command "Error in command execution: ERRZ" = false ∧
    substrB "xx ERRZ yy" "Error in command execution: ERRZ" = false := by decide

/-- Amended C9: a validator-failure error carries the command text and the
full raw response verbatim (as substrings of its message), while an
error-marker match raises exactly the message
`Error in command execution: <marker>` for the first matched marker —
which in general contains neither the command text nor the response. -/
theorem c9_error_contents (conn : Conn) (c : Command) (m : String)
    (h : (execute_command conn c).1 = .error (.exn m)) :
    (validate_response c (scriptAt conn.state.script 0) = .ok false →
      substrB c.command m = true ∧ substrB (scriptAt conn.state.script 0) m = true) ∧
    (∀ mk, c.error_validators.find? (fun x => substrB x (scriptAt conn.state.script 0)) =
        some mk → m = "Error in command execution: " ++ mk) := by
  simp only [execute_command, send_command_eq] at h
  constructor
  · intro hv
    rw [hv] at h
    simp only [Bool.false_eq_true, if_false] at h
    injection h with h'
    injection h' with h''
    subst h''
    constructor
    · rw [substrB_iff]
      simp only [String.data_append, List.append_assoc]
      exact List.infix_append' _ _ _
    · rw [substrB_iff]
      simp only [String.data_append, ← List.append_assoc]
      exact (List.suffix_append _ _).isInfix
  · intro mk hmk
    have hval : validate_response c (scriptAt conn.state.script 0) =
        .error ("Error in command execution: " ++ mk) := by
      simp [validate_response, hmk]
    rw [hval] at h
    injection h with h'
    injection h' with h''
    exact h''.symm

/-- The connection of the C9 witness: the scripted response matches no
validator, so execution fails validation. -/
def c9Conn : Conn :=
  { state := { script := ["no match here"], sent := [], wait_fors := [] },
    access_level := .PRIVILEGED }

/-- The command of the C9 witness: one success marker, no error markers. -/
def c9Cmd : Command :=
  { command := "barcmd", wait_for := none, validators := ["OKK"], error_validators := [] }

/-- The message the C9 witness's failed validation raises. -/
def c9Msg : String := "Command 'barcmd' failed validation.\nResponse: no match here"

/-- Witness for the amended C9 on a concrete validator failure. -/
theorem c9_witness :
    (validate_response c9Cmd (scriptAt c9Conn.state.script 0) = .ok false →
      substrB c9Cmd.command c9Msg = true ∧
        substrB (scriptAt c9Conn.state.script 0) c9Msg = true) ∧
    (∀ mk, c9Cmd.error_validators.find? (fun x => substrB x (scriptAt c9Conn.state.script 0)) =
        some mk → c9Msg = "Error in command execution: " ++ mk) :=
  c9_error_contents c9Conn c9Cmd c9Msg (by decide)

/-- A Python argument value at the `Command(...)` call sites: a string, a
list of strings, or a command dict. -/
inductive PyArgVal
  | vstr (s : String)
  | vlist (l : List String)
  | vdict (d : List (String × PyArgVal))

/-- Python dict lookup on an association list (the dict literals of this
repository have distinct keys). -/
def dictLookup (d : List (String × PyArgVal)) (k : String) : Option PyArgVal :=
  match d.find? (fun p => p.1 == k) with
  | some p => some p.2
  | none => none

/-- The body of `Command.__init__(self, command_dict)` once `command_dict`
is bound: `command_dict['command']` (a missing key raises KeyError),
`.get('wait_for')` and the two `.get(..., [])` marker lists.  String and
list valued entries are modelled, the shapes the repository's dicts use. -/
def command_init_body : PyArgVal → Except PyError Command
  | .vdict d =>
    match dictLookup d "command" with
    | none => .error (.exn "KeyError: command")
    | some (.vstr cmd) =>
      .ok { command := cmd,
            wait_for := (match dictLookup d "wait_for" with
              | some (.vstr w) => some w
              | _ => none),
            validators := (match dictLookup d "validators" with
              | some (.vlist l) => l
              | _ => []),
            error_validators := (match dictLookup d "error_validators" with
              | some (.vlist l) => l
              | _ => []) }
    | some _ => .error (.exn "TypeError: command value is not a string")
  | _ => .error (.exn "TypeError: command_dict is not subscriptable")

/-- Embeds a Python call `Command(*pos, **kw)` against the actual signature
`Command.__init__(self, command_dict)`: a keyword argument named anything
but `command_dict` raises TypeError, a call binding `command_dict` twice or
not at all raises TypeError, and a valid binding runs the body. -/
def Command_call (pos : List PyArgVal) (kw : List (String × PyArgVal)) :
    Except PyError Command :=
  match kw.find? (fun p => p.1 != "command_dict") with
  | some p =>
    .error (.exn ("TypeError: __init__() got an unexpected keyword argument: " ++ p.1))
  | none =>
    match pos, dictLookup kw "command_dict" with
    | [d], none => command_init_body d
    | [], some d => command_init_body d
    | [], none =>
      .error (.exn "TypeError: __init__() missing 1 required positional argument: command_dict")
    | _, _ =>
      .error (.exn "TypeError: __init__() got multiple values for argument command_dict")

/-- Embeds `CommandFactory.create_rsa_key_command`, which calls
`Command(command=..., wait_for=..., validators=[...])` with keyword
arguments. -/
def create_rsa_key_command : Except PyError Command :=
  Command_call []
    [("command", .vstr "crypto key generate rsa"),
     ("wait_for", .vstr "RSA Key pair is successfully created"),
     ("validators", .vlist ["Creating RSA key pair, please wait", "Key already exists"])]

/-- Embeds `CommandFactory.create_ssl_cert_command`, which likewise calls
`Command(...)` with keyword arguments. -/
def create_ssl_cert_command : Except PyError Command :=
  Command_call []
    [("command", .vstr "crypto-ssl certificate generate"),
     ("wait_for", .vstr "ssl-certificate creation is successful"),
     ("validators", .vlist ["Creating certificate, please wait"])]

/-- Claim C10 evaluated at the failing input: both factory constructors
raise TypeError instead of returning a `Command` value, because
`Command.__init__` takes a single `command_dict` and the factories pass
keyword arguments. -/
theorem c10_factory_type_error :
    create_rsa_key_command =
      .error (.exn "TypeError: __init__() got an unexpected keyword argument: command") ∧
    create_ssl_cert_command =
      .error (.exn "TypeError: __init__() got an unexpected keyword argument: command") := by
  decide

end Raucous
